import Mathlib

/-!
Verification development for the FileAlchemy `Archive` class
(`src/FileAlchemy/structures/archive.py`): a unified interface over
zip, 7z, tar (plain and compressed), rar, gz and bz2 containers.

The Python code is shallowly embedded: each method's control flow is
translated into a pure Lean function; exceptions raised by the code
become `Except` errors (or an `Option ArchiveError` paired with the
resulting file-system state for the scratch-directory lifecycle);
the file system touched by the rebuild strategy is an explicit record
of booleans threaded through the operations.
-/

/-- Errors raised by the `Archive` methods.  The Python code raises
`ValueError` for an unresolvable format and for a missing member,
`FileNotFoundError` for a missing `add` source, `NotImplementedError`
for operations a format does not support, and lets underlying codec
exceptions propagate (modelled as `codecFailure`). -/
inductive ArchiveError where
  | unresolvedFormat
  | sourceNotFound
  | memberNotFound
  | notImplemented
  | codecFailure
  deriving DecidableEq, Repr

/-- `str.split('.')` on a character list: Python's split, which returns
`[""]` on the empty string and never drops empty pieces. -/
def splitOnDot : List Char → List (List Char)
  | [] => [[]]
  | c :: cs =>
    if c = '.' then [] :: splitOnDot cs
    else
      match splitOnDot cs with
      | [] => [[c]]
      | p :: ps => (c :: p) :: ps

/-- `name.endswith('.')` on a character list. -/
def endsWithDot (l : List Char) : Bool :=
  match l.getLast? with
  | some c => c = '.'
  | none => false

/-- `compound_ext[1:]` / `suffixes[-1][1:]`: a string minus its first
character. -/
def strTail (s : String) : String :=
  String.mk (s.data.drop 1)

/-- `pathlib.PurePath.suffixes` for a file name: empty when the name ends
with a dot; otherwise strip leading dots, split on `.`, and return every
piece after the first, each with a leading dot restored. -/
def pySuffixes (name : String) : List String :=
  if endsWithDot name.data then []
  else
    let stripped := name.data.dropWhile (fun c => c = '.')
    ((splitOnDot stripped).drop 1).map (fun p => String.mk ('.' :: p))

/-- The keys of the `ext_map` dictionary in `Archive.__init__`. -/
def extKeys : List String :=
  [".zip", ".7z", ".tar", ".gz", ".bz2", ".rar", ".tgz", ".tbz2"]

/-- `ext_map.get(k, d)`: the extension-to-tag dictionary lookup of
`Archive.__init__`, with default `d` on a missing key. -/
def ext_map_get (k d : String) : String :=
  if k = ".zip" then "zip"
  else if k = ".7z" then "7z"
  else if k = ".tar" then "tar"
  else if k = ".gz" then "gz"
  else if k = ".bz2" then "bz2"
  else if k = ".rar" then "rar"
  else if k = ".tgz" then "tar.gz"
  else if k = ".tbz2" then "tar.bz2"
  else d

/-- `''.join(suffixes[-2:])`: the compound extension candidate built from
the last two suffixes of a name. -/
def compoundExt (name : String) : String :=
  String.join ((pySuffixes name).drop ((pySuffixes name).length - 2))

/-- Format resolution of `Archive.__init__`: an explicit format is
lower-cased and used directly; otherwise the suffix chain is inspected
(error when empty, compound `.tar.gz` / `.tar.bz2` recognised from the
last two suffixes, else the last suffix looked up in `ext_map` with the
suffix text minus its dot as the default). -/
def resolveFormat (name : String) (format : Option String) : Except ArchiveError String :=
  match format with
  | some f => .ok f.toLower
  | none =>
    let suffixes := pySuffixes name
    if suffixes = [] then .error .unresolvedFormat
    else if 2 ≤ suffixes.length then
      let compound := compoundExt name
      if compound = ".tar.gz" ∨ compound = ".tar.bz2" then
        .ok (ext_map_get compound (strTail compound))
      else
        .ok (ext_map_get (suffixes.getLastD "") (strTail (suffixes.getLastD "")))
    else
      .ok (ext_map_get (suffixes.getLastD "") (strTail (suffixes.getLastD "")))

/-- Index of the first `.` in a character list, if any. -/
def findDotIdx : List Char → Option Nat
  | [] => none
  | c :: cs => if c = '.' then some 0 else (findDotIdx cs).map (fun j => j + 1)

/-- `pathlib.PurePath.stem` on a character list: `i = name.rfind('.')`
(found by scanning the reversal), and the name is truncated at `i`
exactly when `0 < i < len(name) - 1`. -/
def pyStemL (l : List Char) : List Char :=
  match (findDotIdx l.reverse).map (fun j => l.length - 1 - j) with
  | none => l
  | some i => if 0 < i ∧ i + 1 < l.length then l.take i else l

/-- `pathlib.PurePath.stem` for a file name. -/
def pyStem (name : String) : String :=
  String.mk (pyStemL name.data)

/-- An `Archive` handle: the file name of the archive path, the resolved
format tag, and the optional password stored by `__init__`. -/
structure ArchiveH where
  name : String
  format : String
  password : Option String
  deriving DecidableEq, Repr

/-- `name.replace('\\', '/')`: member-name normalisation applied by
`Archive.__iter__` to every yielded name. -/
def normSlash (s : String) : String :=
  String.mk (s.data.map (fun c => if c = '\\' then '/' else c))

/-- `Archive.__iter__`: the sequence of member names the iterator yields.
`container` is the list of entry names stored in the on-disk container
(as reported by the underlying codec's `namelist` / `getnames` /
`getmembers`).  zip, 7z, tar-family and rar yield each name with
backslashes normalised to `/`; gz and bz2 yield the single synthetic
entry `self.path.stem`; any other tag raises `NotImplementedError`. -/
def archiveIter (a : ArchiveH) (container : List String) : Except ArchiveError (List String) :=
  if a.format = "zip" then .ok (container.map normSlash)
  else if a.format = "7z" then .ok (container.map normSlash)
  else if a.format = "tar" ∨ a.format = "tar.gz" ∨ a.format = "tar.bz2" then
    .ok (container.map normSlash)
  else if a.format = "rar" then .ok (container.map normSlash)
  else if a.format = "gz" ∨ a.format = "bz2" then .ok [pyStem a.name]
  else .error .notImplemented

/-- `list(...)`: materialising an iterator into a list, element by
element, as Python's `list` constructor does. -/
def pyList (l : List String) : List String :=
  l.foldl (fun acc x => acc ++ [x]) []

/-- `Archive.list_files`: `return list(self.__iter__())`. -/
def list_files (a : ArchiveH) (container : List String) : Except ArchiveError (List String) :=
  (archiveIter a container).map pyList

/-- `s.startswith(pre)` on character lists. -/
def listStartsWith : List Char → List Char → Bool
  | _, [] => true
  | [], _ :: _ => false
  | c :: cs, p :: ps => c = p && listStartsWith cs ps

/-- The member filter used by `Archive.extract` in its zip, 7z,
tar-family and rar branches: `f == member or f.startswith(member + '/')`. -/
def matchesMember (member f : String) : Bool :=
  f == member || listStartsWith f.data (member ++ "/").data

/-- Member selection of `Archive.extract` for the multi-member formats:
`if member:` is Python truthiness, so `None` and the empty string both
select the whole archive; otherwise the matching entries are extracted
and an empty match set raises `ValueError` (member not found). -/
def extractSelect (names : List String) (member : Option String) : Except ArchiveError (List String) :=
  match member with
  | none => .ok names
  | some m =>
    if m = "" then .ok names
    else
      let targets := names.filter (matchesMember m)
      if targets = [] then .error .memberNotFound else .ok targets

/-- `Archive.extract`: the set of entries written (relative to the
destination directory, which is created first).  zip, 7z, tar-family and
rar extract the selected members; gz and bz2 ignore `member` and write
the single stream to `destinationDir / self.path.stem`; any other tag
raises `NotImplementedError`. -/
def extractOp (a : ArchiveH) (container : List String) (member : Option String) : Except ArchiveError (List String) :=
  if a.format = "zip" then extractSelect container member
  else if a.format = "7z" then extractSelect container member
  else if a.format = "tar" ∨ a.format = "tar.gz" ∨ a.format = "tar.bz2" then
    extractSelect container member
  else if a.format = "rar" then extractSelect container member
  else if a.format = "gz" then .ok [pyStem a.name]
  else if a.format = "bz2" then .ok [pyStem a.name]
  else .error .notImplemented

/-- The file-system facts the scratch-directory lifecycle touches:
whether the scratch directory `~temp_<stem>` currently exists, and
whether the archive container file exists on disk. -/
structure FSState where
  tempDirExists : Bool
  archiveExists : Bool
  deriving DecidableEq, Repr

/-- Which steps of a rebuild the underlying codec fails on: extraction
of the existing container into scratch, or recreation of the container
from scratch.  A raised codec exception propagates out of the `Archive`
method (there is no `try`/`finally` around the rebuild). -/
structure CodecBehavior where
  extractRaises : Bool
  recreateRaises : Bool
  deriving DecidableEq, Repr

/-- `Archive.cleanup`: removes the scratch directory when it exists. -/
def cleanupFS (s : FSState) : FSState :=
  { s with tempDirExists := false }

/-- `Archive._prepare_tar_temp`: `cleanup()`, make the scratch directory,
and extract the existing container into it (an extraction exception
propagates with the scratch directory left in place). -/
def prepare_tar_temp (cb : CodecBehavior) (s : FSState) : Option ArchiveError × FSState :=
  let s1 := cleanupFS s
  let s2 := { s1 with tempDirExists := true }
  if s2.archiveExists then
    if cb.extractRaises then (some .codecFailure, s2) else (none, s2)
  else (none, s2)

/-- `Archive._recreate_tar`: rewrite the container from the scratch
directory, then `cleanup()`.  The `cleanup()` call is the last statement
and is skipped when recreation raises. -/
def recreate_tar (cb : CodecBehavior) (s : FSState) : Option ArchiveError × FSState :=
  if cb.recreateRaises then (some .codecFailure, s)
  else (none, cleanupFS { s with archiveExists := true })

/-- `Archive._add_to_tar` / `_add_dir_to_tar`: prepare scratch, copy the
source in (modelled as exception-free), recreate. -/
def add_to_tar (cb : CodecBehavior) (s : FSState) : Option ArchiveError × FSState :=
  match prepare_tar_temp cb s with
  | (some e, s1) => (some e, s1)
  | (none, s1) => recreate_tar cb s1

/-- `Archive._prepare_7z_temp`: same structure as `_prepare_tar_temp`. -/
def prepare_7z_temp (cb : CodecBehavior) (s : FSState) : Option ArchiveError × FSState :=
  let s1 := cleanupFS s
  let s2 := { s1 with tempDirExists := true }
  if s2.archiveExists then
    if cb.extractRaises then (some .codecFailure, s2) else (none, s2)
  else (none, s2)

/-- `Archive._recreate_7z`: rewrite the 7z container from scratch, then
`cleanup()`; the `cleanup()` is skipped when recreation raises. -/
def recreate_7z (cb : CodecBehavior) (s : FSState) : Option ArchiveError × FSState :=
  if cb.recreateRaises then (some .codecFailure, s)
  else (none, cleanupFS { s with archiveExists := true })

/-- `Archive._add_to_7z` / the 7z branch of `_add_directory`. -/
def add_to_7z (cb : CodecBehavior) (s : FSState) : Option ArchiveError × FSState :=
  match prepare_7z_temp cb s with
  | (some e, s1) => (some e, s1)
  | (none, s1) => recreate_7z cb s1

/-- `Archive.add`: the existence check on the source path runs first and
raises `FileNotFoundError` before any dispatch; then zip appends in
place, 7z runs the rebuild, tar-family rebuilds when the container
already exists and writes directly otherwise, and every other tag raises
`NotImplementedError`. -/
def addOp (fmt : String) (sourceExists : Bool) (cb : CodecBehavior) (s : FSState) : Option ArchiveError × FSState :=
  if sourceExists = false then (some .sourceNotFound, s)
  else if fmt = "zip" then (none, { s with archiveExists := true })
  else if fmt = "7z" then add_to_7z cb s
  else if fmt = "tar" ∨ fmt = "tar.gz" ∨ fmt = "tar.bz2" then
    if s.archiveExists then add_to_tar cb s
    else (none, { s with archiveExists := true })
  else (some .notImplemented, s)

/-- Which zip codec a zip write ends up using. -/
inductive ZipCodec where
  | pyzipperAES
  | plainZipfile
  deriving DecidableEq, Repr

/-- What a `create`-style call produced: whether a container file was
written, which zip codec wrote it (for zip), and whether the stored
password was applied to the container. -/
structure CreateOutcome where
  wrote : Bool
  zipCodec : Option ZipCodec
  passwordApplied : Bool
  deriving DecidableEq, Repr

/-- Python truthiness of the stored password, as tested by
`if self.password:` — `None` and the empty string are both falsy. -/
def optStrTruthy : Option String → Bool
  | none => false
  | some s => !(s = "")

/-- `Archive.create`: zip tests `if self.password:` (Python truthiness,
so `None` and `""` both take the plain branch) and writes an empty
container with `pyzipper`'s AES codec when the password is truthy
(falling back to plain `zipfile`, with no password applied, when
`pyzipper` is unavailable), and with plain `zipfile` otherwise; 7z
writes an empty container through `py7zr`, passing the password
argument; the tar family writes an empty container; every other tag
falls through the `if`/`elif` chain and `return self` runs with nothing
written and no exception raised. -/
def createOp (fmt : String) (password : Option String) (pyzipperAvailable : Bool) : Except ArchiveError CreateOutcome :=
  if fmt = "zip" then
    if optStrTruthy password then
      if pyzipperAvailable then .ok ⟨true, some .pyzipperAES, true⟩
      else .ok ⟨true, some .plainZipfile, false⟩
    else .ok ⟨true, some .plainZipfile, false⟩
  else if fmt = "7z" then .ok ⟨true, none, password.isSome⟩
  else if fmt = "tar" ∨ fmt = "tar.gz" ∨ fmt = "tar.bz2" then .ok ⟨true, none, false⟩
  else .ok ⟨false, none, false⟩

/-- The `supported_formats` list of `Archive.create_from`. -/
def supported_formats : List String :=
  ["zip", "7z", "tar", "tar.gz", "tar.bz2"]

/-- `Archive.create_from`: construct the handle, reject formats outside
`supported_formats`, and when `files` is empty write the empty container
directly — the zip case uses plain `zipfile.ZipFile` with no password
argument even when a password was supplied; 7z passes the password to
`py7zr`; tar-family opens in the compression-appropriate write mode.
A non-empty `files` list instead runs the `add` loop, outside this
outcome model (`.ok none`). -/
def create_from (fmt : String) (filesEmpty : Bool) (password : Option String) : Except ArchiveError (Option CreateOutcome) :=
  if (fmt ∈ supported_formats) = false then .error .notImplemented
  else if filesEmpty then
    if fmt = "zip" then .ok (some ⟨true, some .plainZipfile, false⟩)
    else if fmt = "7z" then .ok (some ⟨true, none, password.isSome⟩)
    else .ok (some ⟨true, none, false⟩)
  else .ok none

example : pySuffixes "x.tar.gz" = [".tar", ".gz"] := by decide
example : pySuffixes "x.tgz" = [".tgz"] := by decide
example : pySuffixes "archive" = [] := by decide
example : resolveFormat "x.tar.gz" none = .ok "tar.gz" := rfl
example : resolveFormat "x.tgz" none = .ok "tar.gz" := rfl
example : resolveFormat "a.xyz" none = .ok "xyz" := rfl
example : pyStem "data.txt.gz" = "data.txt" := by decide

/-- Scanning for the first dot in `xs ++ '.' :: ys` finds the seam when
`xs` itself is dot-free. -/
theorem findDotIdx_seam (xs ys : List Char) (h : ∀ c ∈ xs, c ≠ '.') :
    findDotIdx (xs ++ '.' :: ys) = some xs.length := by
  induction xs with
  | nil => simp [findDotIdx]
  | cons c cs ih =>
    have hc : c ≠ '.' := h c (by simp)
    have ih2 := ih (fun d hd => h d (by simp [hd]))
    simp [findDotIdx, hc, ih2]

/-- `pathlib` stem on `base ++ "." ++ ext`: when the extension is
non-empty and dot-free and the base is non-empty, the stem is the base. -/
theorem pyStemL_strip (b e : List Char) (hb : b ≠ []) (he : e ≠ [])
    (hd : ∀ c ∈ e, c ≠ '.') :
    pyStemL (b ++ '.' :: e) = b := by
  have hrev : (b ++ '.' :: e).reverse = e.reverse ++ '.' :: b.reverse := by
    simp
  have hfind : findDotIdx (b ++ '.' :: e).reverse = some e.length := by
    rw [hrev]
    have := findDotIdx_seam e.reverse b.reverse
      (fun c hc => hd c (List.mem_reverse.mp hc))
    simpa using this
  have hlen : (b ++ '.' :: e).length = b.length + e.length + 1 := by
    simp [List.length_append]
    omega
  have hi : (b ++ '.' :: e).length - 1 - e.length = b.length := by omega
  have hbpos : 0 < b.length := List.length_pos.mpr hb
  have hepos : 0 < e.length := List.length_pos.mpr he
  unfold pyStemL
  rw [hfind]
  simp only [Option.map_some']
  rw [hi]
  rw [if_pos ⟨hbpos, by omega⟩]
  exact List.take_left b ('.' :: e)

/-- `list(...)` materialisation is the identity on the yielded list. -/
theorem pyList_id (l : List String) : pyList l = l := by
  have h : ∀ (l acc : List String), l.foldl (fun a x => a ++ [x]) acc = acc ++ l := by
    intro l
    induction l with
    | nil => simp
    | cons x xs ih => intro acc; simp [List.foldl, ih]
  simpa [pyList] using h l []

/-- `ext_map.get(k, d)` returns the default on a key outside the table. -/
theorem ext_map_get_default (k d : String) (h : k ∉ extKeys) : ext_map_get k d = d := by
  simp [extKeys] at h
  obtain ⟨n1, n2, n3, n4, n5, n6, n7, n8⟩ := h
  simp [ext_map_get, n1, n2, n3, n4, n5, n6, n7, n8]

/-- Claim C1 (the code at the claimed failing inputs): `create()` on a
handle whose format tag is `gz`, `bz2` or `rar` raises no error and
writes no container — it falls through the format dispatch and returns
the handle, instead of failing with `UnsupportedOperation` as the spec
requires. -/
theorem create_gz_bz2_rar_silently_returns (pw : Option String) (avail : Bool) :
    createOp "gz" pw avail = .ok ⟨false, none, false⟩ ∧
    createOp "bz2" pw avail = .ok ⟨false, none, false⟩ ∧
    createOp "rar" pw avail = .ok ⟨false, none, false⟩ :=
  ⟨rfl, rfl, rfl⟩

/-- Claim C2 counterexample: `add` on an existing tar-family archive,
with a codec exception during recreation, exits with the exception while
the scratch directory still exists — cleanup does not run on this exit
path. -/
theorem rebuild_scratch_survives_failure :
    (addOp "tar" true ⟨false, true⟩ ⟨false, true⟩).1 = some .codecFailure ∧
    (addOp "tar" true ⟨false, true⟩ ⟨false, true⟩).2.tempDirExists = true := by
  constructor <;> rfl

/-- Claim C2 as amended: for the rebuild strategies (`add` into an
existing tar-family archive, `add` into 7z), the scratch directory is
removed before the operation returns on the success exit path; when the
underlying codec raises during extraction or recreation, the exception
propagates and the scratch directory survives the operation (it is only
removed by the `cleanup()` at the start of the next rebuild). -/
theorem rebuild_scratch_removed_on_success (cb : CodecBehavior) (s : FSState) :
    ((add_to_tar cb s).1 = none → (add_to_tar cb s).2.tempDirExists = false) ∧
    ((add_to_7z cb s).1 = none → (add_to_7z cb s).2.tempDirExists = false) := by
  rcases cb with ⟨er, rr⟩
  rcases s with ⟨t, a⟩
  cases er <;> cases rr <;> cases t <;> cases a <;> exact (by decide)

/-- Claim C2 witness: a concrete successful rebuild ends with the
scratch directory removed. -/
theorem rebuild_scratch_removed_on_success_witness :
    (add_to_tar ⟨false, false⟩ ⟨false, true⟩).2.tempDirExists = false :=
  (rebuild_scratch_removed_on_success ⟨false, false⟩ ⟨false, true⟩).1 (by decide)

/-- Claim C3 counterexample: with the archive containing the single
member `a.txt` and the member argument the empty string, no entry equals
`""` or starts with `"/"`, yet `extract` succeeds and extracts the whole
archive instead of failing with a member-not-found error — Python's
`if member:` treats the empty string like `None`. -/
theorem extract_empty_member_extracts_all :
    (["a.txt"].filter (matchesMember "") = []) ∧
    extractOp ⟨"a.zip", "zip", none⟩ ["a.txt"] (some "") = .ok ["a.txt"] :=
  ⟨by decide, rfl⟩

/-- Claim C3 as amended: for every non-empty member argument `m` and
every zip, 7z, tar-family or rar archive, `extract(m, destDir)` extracts
exactly the entries whose name equals `m` or starts with `m ++ "/"`, and
when no entry matches it fails with a member-not-found error and
extracts nothing. -/
theorem extract_member_select (fmt name : String) (pw : Option String)
    (names : List String) (m : String)
    (hfmt : fmt = "zip" ∨ fmt = "7z" ∨ fmt = "tar" ∨ fmt = "tar.gz" ∨
      fmt = "tar.bz2" ∨ fmt = "rar")
    (_hne : names ≠ []) (hm : m ≠ "") :
    (names.filter (matchesMember m) = [] →
      extractOp ⟨name, fmt, pw⟩ names (some m) = .error .memberNotFound) ∧
    (names.filter (matchesMember m) ≠ [] →
      extractOp ⟨name, fmt, pw⟩ names (some m) = .ok (names.filter (matchesMember m))) := by
  have hsel : extractOp ⟨name, fmt, pw⟩ names (some m) = extractSelect names (some m) := by
    rcases hfmt with h | h | h | h | h | h <;> subst h <;> simp [extractOp]
  constructor
  · intro hempty
    rw [hsel]
    simp [extractSelect, hm, hempty]
  · intro hfull
    rw [hsel]
    simp [extractSelect, hm, hfull]

/-- Claim C3 witness: the spec's own example — extracting the member
`root/x.txt` from an archive holding `root/x.txt` and `root/sub/y.txt`
yields exactly that one file. -/
theorem extract_member_select_witness :
    extractOp ⟨"a.zip", "zip", none⟩ ["root/x.txt", "root/sub/y.txt"]
      (some "root/x.txt") = .ok ["root/x.txt"] :=
  (extract_member_select "zip" "a.zip" none ["root/x.txt", "root/sub/y.txt"]
    "root/x.txt" (Or.inl rfl) (by decide) (by decide)).2 (by decide)

/-- Claim C4: resolving the format of `x.tar.gz` and of `x.tgz` both
yield the tag `tar.gz`, and an explicit format string always bypasses
extension inspection, setting the tag to its lower-casing for every
path. -/
theorem format_resolution_compound_and_override :
    resolveFormat "x.tar.gz" none = .ok "tar.gz" ∧
    resolveFormat "x.tgz" none = .ok "tar.gz" ∧
    ∀ (name f : String), resolveFormat name (some f) = .ok f.toLower :=
  ⟨rfl, rfl, fun _ _ => rfl⟩

/-- Claim C5: for a gz or bz2 handle, `extract(None, d)` writes the
single implied entry to `d / stem`, where the stem is the archive base
name without its final (compression) suffix — in particular extracting
`data.txt.gz` produces `data.txt`. -/
theorem gz_bz2_extract_writes_stem :
    (∀ (name : String) (pw : Option String) (container : List String),
      extractOp ⟨name, "gz", pw⟩ container none = .ok [pyStem name] ∧
      extractOp ⟨name, "bz2", pw⟩ container none = .ok [pyStem name]) ∧
    (∀ b : List Char, b ≠ [] →
      pyStemL (b ++ '.' :: ['g', 'z']) = b ∧
      pyStemL (b ++ '.' :: ['b', 'z', '2']) = b) ∧
    pyStem "data.txt.gz" = "data.txt" := by
  refine ⟨fun name pw container => ⟨rfl, rfl⟩, fun b hb => ⟨?_, ?_⟩, by decide⟩
  · exact pyStemL_strip b ['g', 'z'] hb (by decide) (by decide)
  · exact pyStemL_strip b ['b', 'z', '2'] hb (by decide) (by decide)

/-- Claim C5 witness: the suffix-stripping clause at the concrete base
name `data.txt`. -/
theorem gz_bz2_extract_writes_stem_witness :
    pyStemL ("data.txt".data ++ '.' :: ['g', 'z']) = "data.txt".data :=
  (gz_bz2_extract_writes_stem.2.1 "data.txt".data (by decide)).1

/-- Claim C6: for every format tag, `add` with a source path that does
not exist fails with `SourceNotFound` (`FileNotFoundError`) and leaves
the file-system state — in particular the archive — untouched. -/
theorem add_missing_source_fails_first (fmt : String) (cb : CodecBehavior) (s : FSState) :
    addOp fmt false cb s = (some .sourceNotFound, s) :=
  rfl

/-- Claim C7: constructing a handle with no explicit format for a path
whose name has no suffix fails with `UnresolvedFormat`. -/
theorem no_suffix_unresolved (name : String) (h : pySuffixes name = []) :
    resolveFormat name none = .error .unresolvedFormat := by
  simp [resolveFormat, h]

/-- Claim C7 witness: the suffix-less path `archive`. -/
theorem no_suffix_unresolved_witness :
    pySuffixes "archive" = [] ∧
    resolveFormat "archive" none = .error .unresolvedFormat :=
  ⟨by decide, no_suffix_unresolved "archive" (by decide)⟩

/-- Claim C8: `list_files` is exactly the materialisation of the
sequence `__iter__` produces — for every handle and container state the
two agree (including the error raised on an unsupported tag). -/
theorem list_files_eq_iter (a : ArchiveH) (container : List String) :
    list_files a container = archiveIter a container := by
  unfold list_files
  cases h : archiveIter a container <;> simp [Except.map, pyList_id]

/-- Claim C9: when the name's last suffix is outside the extension table
and the last two suffixes do not form `.tar.gz` or `.tar.bz2`,
construction with no explicit format still succeeds and the tag is the
last suffix with its leading dot removed. -/
theorem unknown_suffix_is_tag (name : String)
    (h1 : pySuffixes name ≠ [])
    (h2 : (pySuffixes name).getLastD "" ∉ extKeys)
    (h3 : ¬(compoundExt name = ".tar.gz" ∨ compoundExt name = ".tar.bz2")) :
    resolveFormat name none = .ok (strTail ((pySuffixes name).getLastD "")) := by
  have hget := ext_map_get_default ((pySuffixes name).getLastD "")
    (strTail ((pySuffixes name).getLastD "")) h2
  rw [List.getLastD_eq_getLast?] at hget
  by_cases hlen : 2 ≤ (pySuffixes name).length
  · simp [resolveFormat, h1, hlen, h3, List.getLastD_eq_getLast?, hget]
  · simp [resolveFormat, h1, hlen, List.getLastD_eq_getLast?, hget]

/-- Claim C9 witness: the path `a.xyz` resolves, with no error, to the
tag `xyz`. -/
theorem unknown_suffix_is_tag_witness :
    pySuffixes "a.xyz" ≠ [] ∧ resolveFormat "a.xyz" none = .ok "xyz" :=
  ⟨by decide, unknown_suffix_is_tag "a.xyz" (by decide) (by decide) (by decide)⟩

/-- Claim C10: `create_from(path, "zip", [], password)` writes the empty
container with the plain `zipfile` codec and never applies the supplied
password, raising no error — while `create()` on a zip handle with a
password set (set in `if self.password:`'s sense, i.e. non-empty; and
`pyzipper` importable) uses the AES-capable codec and applies the
password. -/
theorem create_from_empty_zip_ignores_password (pw : String) :
    create_from "zip" true (some pw) = .ok (some ⟨true, some .plainZipfile, false⟩) ∧
    (pw ≠ "" → createOp "zip" (some pw) true = .ok ⟨true, some .pyzipperAES, true⟩) := by
  refine ⟨rfl, fun h => ?_⟩
  simp [createOp, optStrTruthy, h]

/-- Claim C10 witness: the concrete password `secret`. -/
theorem create_from_empty_zip_ignores_password_witness :
    create_from "zip" true (some "secret") = .ok (some ⟨true, some .plainZipfile, false⟩) ∧
    createOp "zip" (some "secret") true = .ok ⟨true, some .pyzipperAES, true⟩ :=
  ⟨(create_from_empty_zip_ignores_password "secret").1,
   (create_from_empty_zip_ignores_password "secret").2 (by decide)⟩
